import Mathlib

/-!
Shallow embedding of `examples/c_project/src/main.c` from the zbuild
repository.  The program prints a banner, a version line, an optional
argument section and a sum line, then exits with code 0.  The two helper
functions `get_version` and `calculate` are declared in `utils.h` and not
part of the visible source, so they enter the model as parameters: the
string the version provider returns and the adder function.
-/

namespace ZbuildExample

/-- One line of the argument loop, `printf("  [%d]: %s\n", i, argv[i])`:
two spaces, `[`, the index, `]: `, and the argument text. -/
def argLine (i : Nat) (a : String) : String :=
  "  [" ++ toString i ++ "]: " ++ a

/-- The lines printed by `for (int i = 1; i < argc; i++) printf("  [%d]: %s\n", i, argv[i]);`
when the loop counter starts at `i` and the remaining arguments are `args`. -/
def argLines : Nat → List String → List String
  | _, [] => []
  | i, a :: rest => argLine i a :: argLines (i + 1) rest

/-- The fixed banner line, `printf("zbuild Example Project\n")`. -/
def banner : String := "zbuild Example Project"

/-- The version line, `printf("Version: %s\n", get_version())`. -/
def versionLine (version : String) : String := "Version: " ++ version

/-- The sum line, `printf("10 + 20 = %d\n", result)`. -/
def sumLine (result : Int) : String := "10 + 20 = " ++ toString result

/-- Shallow embedding of `main`.  `get_version` is the string returned by the
external version provider, `calculate` the external adder, and `args` the
invocation parameters `argv[1] .. argv[argc-1]`.  The value is the list of
lines written to standard output paired with the exit code. -/
def main (get_version : String) (calculate : Int → Int → Int) (args : List String) :
    List String × Int :=
  let intro := [banner, versionLine get_version]
  let argSection := if 0 < args.length then "Arguments:" :: argLines 1 args else []
  let result := calculate 10 20
  (intro ++ argSection ++ [sumLine result], 0)

/-- Modelled from the spec: the exact line-by-line standard-output format of
section 6 — `zbuild Example Project`, then `Version: <version-string>`, then
(only if parameters were supplied) `Arguments:` and one line
`  [<index>]: <value>` per parameter with 1-based index, then unconditionally
`10 + 20 = <sum>`. -/
def spec_output (versionString : String) (sum : Int) (params : List String) : List String :=
  ["zbuild Example Project", "Version: " ++ versionString]
    ++ (if params = [] then [] else
          "Arguments:" ::
            params.enum.map (fun p => "  [" ++ toString (p.1 + 1) ++ "]: " ++ p.2))
    ++ ["10 + 20 = " ++ toString sum]

/-! Basic lemmas about the argument loop. -/

theorem argLines_length (i : Nat) (xs : List String) :
    (argLines i xs).length = xs.length := by
  induction xs generalizing i with
  | nil => rfl
  | cons a rest ih => simp [argLines, ih]

theorem argLines_getElem? (xs : List String) (i k : Nat) :
    (argLines i xs)[k]? = (xs[k]?).map (fun a => argLine (i + k) a) := by
  induction xs generalizing i k with
  | nil => simp [argLines]
  | cons a rest ih =>
    cases k with
    | zero => simp [argLines]
    | succ k =>
      simp only [argLines, List.getElem?_cons_succ, ih]
      have h : i + 1 + k = i + (k + 1) := by omega
      rw [h]

theorem argLines_eq_enum_map (xs : List String) (i : Nat) :
    (xs.enumFrom i).map (fun p => "  [" ++ toString (p.1 + 1) ++ "]: " ++ p.2) =
      argLines (i + 1) xs := by
  induction xs generalizing i with
  | nil => rfl
  | cons a rest ih => simp [argLines, argLine, List.enumFrom, ih]

/-! String helpers: two strings whose first characters differ are distinct. -/

theorem firstChar_append (a b : String) (c : Char)
    (h : a.data.head? = some c) : (a ++ b).data.head? = some c := by
  have e : (a ++ b).data = a.data ++ b.data := rfl
  rw [e]
  cases hd : a.data with
  | nil => rw [hd] at h; simp at h
  | cons x xs => rw [hd] at h; simpa using h

theorem ne_of_firstChar_ne (a b : String) (h : a.data.head? ≠ b.data.head?) :
    a ≠ b := by
  intro e
  exact h (by rw [e])

theorem argLine_head (i : Nat) (a : String) : (argLine i a).data.head? = some ' ' := by
  apply firstChar_append
  apply firstChar_append
  apply firstChar_append
  rfl

theorem versionLine_head (v : String) : (versionLine v).data.head? = some 'V' := by
  apply firstChar_append
  rfl

theorem sumLine_head (r : Int) : (sumLine r).data.head? = some '1' := by
  apply firstChar_append
  rfl

/-- The last output line of `main` is always the sum line for the adder's
result at `10` and `20`. -/
theorem main_getLast? (v : String) (c : Int → Int → Int) (args : List String) :
    (main v c args).1.getLast? = some (sumLine (c 10 20)) := by
  have h : (main v c args).1 =
      ([banner, versionLine v] ++
        (if 0 < args.length then "Arguments:" :: argLines 1 args else [])) ++
        [sumLine (c 10 20)] := by
    simp [main, List.append_assoc]
  rw [h, List.getLast?_concat]

/-- With no parameters the output is exactly three lines. -/
theorem main_eq_nil (v : String) (c : Int → Int → Int) :
    (main v c []).1 = [banner, versionLine v, sumLine (c 10 20)] := rfl

/-- With at least one parameter the output is the banner, the version line, the
`Arguments:` header, the argument lines and the sum line. -/
theorem main_eq_cons (v : String) (c : Int → Int → Int) (a : String)
    (rest : List String) :
    (main v c (a :: rest)).1 =
      banner :: versionLine v :: "Arguments:" ::
        (argLines 1 (a :: rest) ++ [sumLine (c 10 20)]) := by
  simp [main]

theorem main_length (v : String) (c : Int → Int → Int) (args : List String) :
    (main v c args).1.length = if args.length = 0 then 3 else 4 + args.length := by
  rcases args with _ | ⟨a, rest⟩
  · rfl
  · rw [main_eq_cons]
    simp [argLines_length]
    omega

theorem main_getElem?_zero (v : String) (c : Int → Int → Int) (args : List String) :
    (main v c args).1[0]? = some banner := by
  rcases args with _ | ⟨a, rest⟩
  · rfl
  · rw [main_eq_cons]
    rfl

theorem main_getElem?_one (v : String) (c : Int → Int → Int) (args : List String) :
    (main v c args).1[1]? = some (versionLine v) := by
  rcases args with _ | ⟨a, rest⟩
  · rfl
  · rw [main_eq_cons]
    rfl

theorem main_getElem?_two (v : String) (c : Int → Int → Int) (args : List String) :
    (main v c args).1[2]? =
      some (if args.length = 0 then sumLine (c 10 20) else "Arguments:") := by
  rcases args with _ | ⟨a, rest⟩
  · rfl
  · rw [main_eq_cons]
    simp

/-! The claims. -/

/-- C1: for every invocation with `N ≥ 1` parameters, the output contains the
`Arguments:` header followed by exactly `N` lines, one per parameter, where the
line for the parameter at 0-based position `k` shows the 1-based index `k + 1`
and the parameter's exact text, in the order the parameters were received. -/
theorem C1_arguments_section (v : String) (c : Int → Int → Int)
    (args : List String) (h : args ≠ []) :
    (main v c args).1 =
      [banner, versionLine v] ++ ("Arguments:" :: argLines 1 args) ++
        [sumLine (c 10 20)]
    ∧ (argLines 1 args).length = args.length
    ∧ ∀ k a, args[k]? = some a → (argLines 1 args)[k]? = some (argLine (k + 1) a) := by
  refine ⟨?_, argLines_length 1 args, ?_⟩
  · have hl : 0 < args.length := List.length_pos.mpr h
    simp [main, if_pos hl]
  · intro k a ha
    rw [argLines_getElem?, ha]
    simp [Nat.add_comm]

/-- Witness for C1 at the spec's Scenario C: parameters `foo` and `bar baz`. -/
theorem C1_arguments_section_witness :
    (["foo", "bar baz"] : List String) ≠ [] ∧
    ((main "1.0.0" (fun a b => a + b) ["foo", "bar baz"]).1 =
      [banner, versionLine "1.0.0"] ++
        ("Arguments:" :: argLines 1 ["foo", "bar baz"]) ++
        [sumLine ((fun a b : Int => a + b) 10 20)]
    ∧ (argLines 1 ["foo", "bar baz"]).length =
        (["foo", "bar baz"] : List String).length
    ∧ ∀ k a, (["foo", "bar baz"] : List String)[k]? = some a →
        (argLines 1 ["foo", "bar baz"])[k]? = some (argLine (k + 1) a)) :=
  ⟨by decide,
   C1_arguments_section "1.0.0" (fun a b => a + b) ["foo", "bar baz"] (by decide)⟩

/-- C2: whenever the adder is conforming (`calculate 10 20 = 30`), the final
output line is exactly `10 + 20 = 30`, for every parameter sequence. -/
theorem C2_sum_line (v : String) (c : Int → Int → Int) (args : List String)
    (h : c 10 20 = 30) :
    (main v c args).1.getLast? = some "10 + 20 = 30" := by
  rw [main_getLast?, h]
  rfl

/-- Witness for C2 with a genuine adder and one parameter. -/
theorem C2_sum_line_witness :
    (fun a b : Int => a + b) 10 20 = 30 ∧
    (main "1.0.0" (fun a b => a + b) ["hello"]).1.getLast? = some "10 + 20 = 30" :=
  ⟨by decide, C2_sum_line "1.0.0" (fun a b => a + b) ["hello"] (by decide)⟩

/-- C3: with zero parameters the output is exactly the banner line, the version
line and the sum line, and neither the `Arguments:` header nor any argument
line appears anywhere in the output. -/
theorem C3_no_args (v : String) (c : Int → Int → Int) :
    (main v c []).1 = [banner, versionLine v, sumLine (c 10 20)]
    ∧ "Arguments:" ∉ (main v c []).1
    ∧ ∀ i a, argLine i a ∉ (main v c []).1 := by
  refine ⟨main_eq_nil v c, ?_, ?_⟩
  · rw [main_eq_nil]
    simp only [List.mem_cons, List.not_mem_nil, or_false, not_or]
    refine ⟨by decide, ?_, ?_⟩
    · exact ne_of_firstChar_ne _ _ (by rw [versionLine_head]; decide)
    · exact ne_of_firstChar_ne _ _ (by rw [sumLine_head]; decide)
  · intro i a
    rw [main_eq_nil]
    simp only [List.mem_cons, List.not_mem_nil, or_false, not_or]
    refine ⟨?_, ?_, ?_⟩
    · exact ne_of_firstChar_ne _ _ (by rw [argLine_head]; decide)
    · exact ne_of_firstChar_ne _ _ (by rw [argLine_head, versionLine_head]; decide)
    · exact ne_of_firstChar_ne _ _ (by rw [argLine_head, sumLine_head]; decide)

/-- Witness for C3 at a concrete version string and adder. -/
theorem C3_no_args_witness :
    (main "1.0.0" (fun a b => a + b) []).1 =
      [banner, versionLine "1.0.0", sumLine ((fun a b : Int => a + b) 10 20)]
    ∧ "Arguments:" ∉ (main "1.0.0" (fun a b => a + b) []).1
    ∧ ∀ i a, argLine i a ∉ (main "1.0.0" (fun a b => a + b) []).1 :=
  C3_no_args "1.0.0" (fun a b => a + b)

/-- C4: the output matches, line by line, the exact format given by the spec:
banner `zbuild Example Project`, version line `Version: ` plus the provider's
string, the optional `Arguments:` section with lines of two spaces, `[`, the
1-based index, `]: ` and the value, then `10 + 20 = ` plus the adder's result. -/
theorem C4_output_format (v : String) (c : Int → Int → Int) (args : List String) :
    (main v c args).1 = spec_output v (c 10 20) args := by
  rcases args with _ | ⟨a, rest⟩
  · rfl
  · have hne : (a :: rest : List String) ≠ [] := List.cons_ne_nil a rest
    have hl : 0 < (a :: rest : List String).length := List.length_pos.mpr hne
    simp only [main, spec_output, if_pos hl, if_neg hne, banner, versionLine,
      sumLine, List.enum]
    rw [argLines_eq_enum_map]

/-- C5: the output lines appear in a fixed order — banner first, version line
second, then (exactly when parameters are present) the `Arguments:` header at
position 2 followed by one line per parameter, and the sum line last. -/
theorem C5_output_order (v : String) (c : Int → Int → Int) (args : List String) :
    (main v c args).1[0]? = some banner
    ∧ (main v c args).1[1]? = some (versionLine v)
    ∧ (main v c args).1.getLast? = some (sumLine (c 10 20))
    ∧ (args = [] → (main v c args).1 = [banner, versionLine v, sumLine (c 10 20)])
    ∧ (args ≠ [] →
        (main v c args).1[2]? = some "Arguments:"
        ∧ ∀ k a, args[k]? = some a →
            (main v c args).1[k + 3]? = some (argLine (k + 1) a)) := by
  refine ⟨main_getElem?_zero v c args, main_getElem?_one v c args,
    main_getLast? v c args, ?_, ?_⟩
  · intro h
    subst h
    rfl
  · intro h
    rcases args with _ | ⟨a, rest⟩
    · exact absurd rfl h
    constructor
    · rw [main_eq_cons]
      rfl
    · intro k b hb
      rw [main_eq_cons]
      rw [show k + 3 = k + 2 + 1 from rfl, List.getElem?_cons_succ,
        show k + 2 = k + 1 + 1 from rfl, List.getElem?_cons_succ,
        List.getElem?_cons_succ, List.getElem?_append]
      have hk : k < (argLines 1 (a :: rest)).length := by
        rw [argLines_length]
        exact (List.getElem?_eq_some.mp hb).1
      rw [if_pos hk, argLines_getElem?, hb]
      simp [Nat.add_comm]

/-- Witness for C5 at the spec's Scenario B: one parameter `hello`. -/
theorem C5_output_order_witness :
    (main "1.0.0" (fun a b => a + b) ["hello"]).1[0]? = some banner
    ∧ (main "1.0.0" (fun a b => a + b) ["hello"]).1[1]? = some (versionLine "1.0.0")
    ∧ (main "1.0.0" (fun a b => a + b) ["hello"]).1.getLast? =
        some (sumLine ((fun a b : Int => a + b) 10 20))
    ∧ ((["hello"] : List String) = [] →
        (main "1.0.0" (fun a b => a + b) ["hello"]).1 =
          [banner, versionLine "1.0.0", sumLine ((fun a b : Int => a + b) 10 20)])
    ∧ ((["hello"] : List String) ≠ [] →
        (main "1.0.0" (fun a b => a + b) ["hello"]).1[2]? = some "Arguments:"
        ∧ ∀ k a, (["hello"] : List String)[k]? = some a →
            (main "1.0.0" (fun a b => a + b) ["hello"]).1[k + 3]? =
              some (argLine (k + 1) a)) :=
  C5_output_order "1.0.0" (fun a b => a + b) ["hello"]

/-- C6: the exit code is 0 for every parameter sequence and every behaviour of
the collaborators; `main` has no failure path. -/
theorem C6_exit_code (v : String) (c : Int → Int → Int) (args : List String) :
    (main v c args).2 = 0 := rfl

/-- C7: determinism — two runs given the same parameter sequence and the same
version-provider and adder results produce identical output text and the same
exit code. -/
theorem C7_deterministic (v : String) (c : Int → Int → Int) (args : List String)
    (o₁ o₂ : List String × Int) (h₁ : o₁ = main v c args) (h₂ : o₂ = main v c args) :
    o₁.1 = o₂.1 ∧ o₁.2 = o₂.2 := by
  subst h₁
  subst h₂
  exact ⟨rfl, rfl⟩

/-- Witness for C7 at a concrete run. -/
theorem C7_deterministic_witness :
    (main "1.0.0" (fun a b => a + b) ["x"]).1 =
      (main "1.0.0" (fun a b => a + b) ["x"]).1
    ∧ (main "1.0.0" (fun a b => a + b) ["x"]).2 =
      (main "1.0.0" (fun a b => a + b) ["x"]).2 :=
  C7_deterministic "1.0.0" (fun a b => a + b) ["x"] _ _ rfl rfl

/-- C8: termination and output size — the output is a finite list: 3 lines for
zero parameters and `4 + N` lines for `N ≥ 1` parameters, so the loop runs
exactly once per parameter and the rest is straight-line. -/
theorem C8_output_length (v : String) (c : Int → Int → Int) (args : List String) :
    (main v c args).1.length = if args.length = 0 then 3 else 4 + args.length :=
  main_length v c args

/-- C9: the runner does not validate the adder's result — for every integer `r`
returned by `calculate 10 20`, conforming or not, the final output line is
`10 + 20 = ` followed by the decimal rendering of `r`. -/
theorem C9_unvalidated_sum (v : String) (r : Int) (args : List String) :
    (main v (fun _ _ => r) args).1.getLast? = some ("10 + 20 = " ++ toString r) :=
  main_getLast? v (fun _ _ => r) args

/-- C10: noninterference — with the same collaborators, two runs whose
parameter sequences have the same length produce the same banner, version,
header and sum lines, the same number of output lines and the same exit code:
the parameter values influence only the per-parameter lines. -/
theorem C10_noninterference (v : String) (c : Int → Int → Int)
    (args₁ args₂ : List String) (h : args₁.length = args₂.length) :
    (main v c args₁).1.length = (main v c args₂).1.length
    ∧ (main v c args₁).1[0]? = (main v c args₂).1[0]?
    ∧ (main v c args₁).1[1]? = (main v c args₂).1[1]?
    ∧ (main v c args₁).1[2]? = (main v c args₂).1[2]?
    ∧ (main v c args₁).1.getLast? = (main v c args₂).1.getLast?
    ∧ (main v c args₁).2 = (main v c args₂).2 := by
  refine ⟨?_, ?_, ?_, ?_, ?_, rfl⟩
  · rw [main_length, main_length, h]
  · rw [main_getElem?_zero, main_getElem?_zero]
  · rw [main_getElem?_one, main_getElem?_one]
  · rw [main_getElem?_two, main_getElem?_two, h]
  · rw [main_getLast?, main_getLast?]

/-- Witness for C10 with two distinct one-parameter runs. -/
theorem C10_noninterference_witness :
    (["foo"] : List String).length = (["bar baz"] : List String).length ∧
    ((main "1.0.0" (fun a b => a + b) ["foo"]).1.length =
        (main "1.0.0" (fun a b => a + b) ["bar baz"]).1.length
    ∧ (main "1.0.0" (fun a b => a + b) ["foo"]).1[0]? =
        (main "1.0.0" (fun a b => a + b) ["bar baz"]).1[0]?
    ∧ (main "1.0.0" (fun a b => a + b) ["foo"]).1[1]? =
        (main "1.0.0" (fun a b => a + b) ["bar baz"]).1[1]?
    ∧ (main "1.0.0" (fun a b => a + b) ["foo"]).1[2]? =
        (main "1.0.0" (fun a b => a + b) ["bar baz"]).1[2]?
    ∧ (main "1.0.0" (fun a b => a + b) ["foo"]).1.getLast? =
        (main "1.0.0" (fun a b => a + b) ["bar baz"]).1.getLast?
    ∧ (main "1.0.0" (fun a b => a + b) ["foo"]).2 =
        (main "1.0.0" (fun a b => a + b) ["bar baz"]).2) :=
  ⟨rfl, C10_noninterference "1.0.0" (fun a b => a + b) ["foo"] ["bar baz"] rfl⟩

end ZbuildExample
